import Mathlib

/-!
Shallow embedding of the alx_travel_app listings application
(listings/views.py and listings/urls.py): HTTP methods, the DRF permission
protocol, the three viewsets with their permission classes and
perform_create overrides, and the URL router registrations of urls.py.
Serializer-level behaviour absent from the sources (rating validation,
update field handling) is modelled from the spec and marked as such.
-/

/-- HTTP request methods handled by the framework. -/
inductive Method
  | GET
  | HEAD
  | OPTIONS
  | POST
  | PUT
  | PATCH
  | DELETE
deriving DecidableEq, Repr

/-- DRF safe methods: rest_framework.permissions.SAFE_METHODS is the tuple
(GET, HEAD, OPTIONS). -/
def SAFE_METHODS : List Method := [.GET, .HEAD, .OPTIONS]

/-- Membership test request.method in SAFE_METHODS. -/
def Method.isSafe (m : Method) : Bool := SAFE_METHODS.contains m

/-- The DRF request.user: always present on a request, either the
AnonymousUser or an authenticated user, identified here by a numeric id. -/
inductive RequestUser
  | anonymous
  | user (id : Nat)
deriving DecidableEq, Repr

/-- Truth value of request.user.is_authenticated. -/
def RequestUser.isAuthenticated : RequestUser → Bool
  | .anonymous => false
  | .user _ => true

/-- View of a model instance as seen by getattr(obj, "host", None):
none when the object carries no host attribute. -/
structure ApiObject where
  host : Option RequestUser
deriving DecidableEq, Repr

/-- A DRF permission class: has_permission (dispatch-level) and
has_object_permission (per fetched object); BasePermission defaults both
to True. -/
structure Permission where
  has_permission : Method → RequestUser → Bool
  has_object_permission : Method → RequestUser → ApiObject → Bool

/-- Permission IsHostOrReadOnly of views.py: safe methods are always
allowed; otherwise the result of getattr(obj, "host", None) == request.user
(request.user is never the Python None, so a missing host attribute can
never compare equal to it). has_permission is inherited from
BasePermission and returns True. -/
def IsHostOrReadOnly : Permission where
  has_permission := fun _ _ => true
  has_object_permission := fun m u obj =>
    if m.isSafe then true else obj.host == some u

/-- Framework permission IsAuthenticatedOrReadOnly: dispatch passes when
the method is safe or the caller is authenticated; no object-level rule. -/
def IsAuthenticatedOrReadOnly : Permission where
  has_permission := fun m u => m.isSafe || u.isAuthenticated
  has_object_permission := fun _ _ _ => true

/-- Framework permission IsAuthenticated: dispatch passes exactly for
authenticated callers; no object-level rule. -/
def IsAuthenticated : Permission where
  has_permission := fun _ u => u.isAuthenticated
  has_object_permission := fun _ _ _ => true

/-- APIView.check_permissions: every configured class must allow. -/
def checkPermissions (classes : List Permission) (m : Method) (u : RequestUser) : Bool :=
  classes.all fun p => p.has_permission m u

/-- APIView.check_object_permissions on the fetched object. -/
def checkObjectPermissions (classes : List Permission) (m : Method) (u : RequestUser)
    (obj : ApiObject) : Bool :=
  classes.all fun p => p.has_object_permission m u obj

/-- Outcome of a request as surfaced to the client. -/
inductive Response (α : Type)
  | ok (body : α)
  | created (body : α)
  | noContent
  | validationError
  | notFound
  | unauthenticated
  | forbidden
deriving DecidableEq, Repr

/-- Denial outcome per DRF permission_denied: 401 Unauthenticated for an
unauthenticated caller, 403 Forbidden otherwise. -/
def denyResponse {α : Type} (u : RequestUser) : Response α :=
  if u.isAuthenticated then .forbidden else .unauthenticated

/-- Result of running only the permission gates of a request. -/
inductive AccessResult
  | allowed
  | unauthenticated
  | forbidden
deriving DecidableEq, Repr

/-- Combined permission gate of a request: dispatch-level check_permissions
first, then, for detail actions, check_object_permissions on the fetched
object. -/
def dispatchCheck (classes : List Permission) (m : Method) (u : RequestUser)
    (obj : Option ApiObject) : AccessResult :=
  if !checkPermissions classes m u then
    if u.isAuthenticated then .forbidden else .unauthenticated
  else
    match obj with
    | none => .allowed
    | some o =>
      if checkObjectPermissions classes m u o then .allowed
      else if u.isAuthenticated then .forbidden else .unauthenticated

/-- A persisted Listing row: id, host (owning user), descriptive fields
(price shape unspecified by the sources; modelled as an integer). -/
structure Listing where
  id : Nat
  host : RequestUser
  title : String
  description : String
  price : Int
  location : String
deriving DecidableEq, Repr

/-- A persisted Booking row: id, listing reference, guest, stay dates
(modelled as day indices). -/
structure Booking where
  id : Nat
  listing : Nat
  guest : RequestUser
  check_in : Nat
  check_out : Nat
deriving DecidableEq, Repr

/-- A persisted Review row: id, listing reference, author, rating, comment. -/
structure Review where
  id : Nat
  listing : Nat
  user : RequestUser
  rating : Int
  comment : String
deriving DecidableEq, Repr

/-- Client payload for a listing create/update; host may be supplied by the
client but is server-assigned. -/
structure ListingPayload where
  host : Option RequestUser
  title : String
  description : String
  price : Int
  location : String
deriving DecidableEq, Repr

/-- Client payload for a booking create; guest is server-assigned. -/
structure BookingPayload where
  guest : Option RequestUser
  listing : Nat
  check_in : Nat
  check_out : Nat
deriving DecidableEq, Repr

/-- Client payload for a review create; user is server-assigned. -/
structure ReviewPayload where
  user : Option RequestUser
  listing : Nat
  rating : Int
  comment : String
deriving DecidableEq, Repr

/-- A Listing has a host attribute, so getattr finds it. -/
def Listing.asObject (l : Listing) : ApiObject := ⟨some l.host⟩

/-- A Booking has no host attribute; getattr(b, "host", None) yields None. -/
def Booking.asObject (_ : Booking) : ApiObject := ⟨none⟩

/-- A Review has no host attribute; getattr(r, "host", None) yields None. -/
def Review.asObject (_ : Review) : ApiObject := ⟨none⟩

/-- permission_classes of ListingViewSet (views.py line 46). -/
def ListingViewSet.permission_classes : List Permission :=
  [IsAuthenticatedOrReadOnly, IsHostOrReadOnly]

/-- permission_classes of BookingViewSet (views.py line 71). -/
def BookingViewSet.permission_classes : List Permission := [IsAuthenticated]

/-- permission_classes of ReviewViewSet (views.py line 96). -/
def ReviewViewSet.permission_classes : List Permission := [IsAuthenticated]

/-- ListingViewSet.perform_create: serializer.save(host=self.request.user);
the save keyword argument overrides any client-supplied host value. -/
def ListingViewSet.perform_create (ru : RequestUser) (p : ListingPayload)
    (freshId : Nat) : Listing :=
  { id := freshId, host := ru, title := p.title, description := p.description,
    price := p.price, location := p.location }

/-- BookingViewSet.perform_create: serializer.save(guest=self.request.user). -/
def BookingViewSet.perform_create (ru : RequestUser) (p : BookingPayload)
    (freshId : Nat) : Booking :=
  { id := freshId, listing := p.listing, guest := ru,
    check_in := p.check_in, check_out := p.check_out }

/-- ReviewViewSet.perform_create: serializer.save(user=self.request.user). -/
def ReviewViewSet.perform_create (ru : RequestUser) (p : ReviewPayload)
    (freshId : Nat) : Review :=
  { id := freshId, listing := p.listing, user := ru,
    rating := p.rating, comment := p.comment }

/-- Fresh primary key for an insert: one past the largest id in use. -/
def nextId (ids : List Nat) : Nat := ids.foldr max 0 + 1

/-- Single-row lookup by primary key, as get_object does for a listing. -/
def findListing (store : List Listing) (i : Nat) : Option Listing :=
  store.find? fun l => l.id == i

/-- Modelled from the spec: ReviewSerializer (file listings/serializers.py,
absent from the sources) validates that rating is an integer in [1,5] and
rejects the payload with a validation error otherwise, before persistence. -/
def validateRating (rating : Int) : Bool := 1 ≤ rating && rating ≤ 5

/-- Modelled from the spec: ListingSerializer (file listings/serializers.py,
absent from the sources) applies an update payload by writing the
descriptive fields (title, description, price, location) onto the stored
row; host is immutable after creation and never set from client input, so
the stored host (and id) are kept. -/
def applyListingUpdate (l : Listing) (p : ListingPayload) : Listing :=
  { l with
    title := p.title
    description := p.description
    price := p.price
    location := p.location }

/-- GET on the listing collection: permission gate, then the full store. -/
def ListingViewSet.listHandler (u : RequestUser) (store : List Listing) :
    Response (List Listing) × List Listing :=
  if checkPermissions ListingViewSet.permission_classes .GET u then (.ok store, store)
  else (denyResponse u, store)

/-- GET on a listing item: permission gate, 404 lookup, object gate, row. -/
def ListingViewSet.retrieveHandler (u : RequestUser) (i : Nat) (store : List Listing) :
    Response Listing × List Listing :=
  if !checkPermissions ListingViewSet.permission_classes .GET u then (denyResponse u, store)
  else
    match findListing store i with
    | none => (.notFound, store)
    | some l =>
      if checkObjectPermissions ListingViewSet.permission_classes .GET u l.asObject
      then (.ok l, store) else (denyResponse u, store)

/-- POST on the listing collection: permission gate, then perform_create
persists a row whose host is the caller. -/
def ListingViewSet.createHandler (u : RequestUser) (p : ListingPayload)
    (store : List Listing) : Response Listing × List Listing :=
  if !checkPermissions ListingViewSet.permission_classes .POST u then (denyResponse u, store)
  else
    let l := ListingViewSet.perform_create u p (nextId (store.map Listing.id))
    (.created l, store ++ [l])

/-- PUT on a listing item: permission gate, 404 lookup, object gate (owner
only), then the spec-modelled serializer update is persisted in place. -/
def ListingViewSet.updateHandler (u : RequestUser) (i : Nat) (p : ListingPayload)
    (store : List Listing) : Response Listing × List Listing :=
  if !checkPermissions ListingViewSet.permission_classes .PUT u then (denyResponse u, store)
  else
    match findListing store i with
    | none => (.notFound, store)
    | some l =>
      if checkObjectPermissions ListingViewSet.permission_classes .PUT u l.asObject then
        let updated := applyListingUpdate l p
        (.ok updated, store.map fun x => if x.id == i then updated else x)
      else (denyResponse u, store)

/-- DELETE on a listing item: permission gate, 404 lookup, object gate
(owner only), then the row is removed. -/
def ListingViewSet.destroyHandler (u : RequestUser) (i : Nat) (store : List Listing) :
    Response Unit × List Listing :=
  if !checkPermissions ListingViewSet.permission_classes .DELETE u then (denyResponse u, store)
  else
    match findListing store i with
    | none => (.notFound, store)
    | some l =>
      if checkObjectPermissions ListingViewSet.permission_classes .DELETE u l.asObject then
        (.noContent, store.filter fun x => !(x.id == i))
      else (denyResponse u, store)

/-- POST on the review collection: authentication gate, spec-modelled rating
validation, then perform_create persists a row whose user is the caller. -/
def ReviewViewSet.createHandler (u : RequestUser) (p : ReviewPayload)
    (store : List Review) : Response Review × List Review :=
  if !checkPermissions ReviewViewSet.permission_classes .POST u then (denyResponse u, store)
  else if !validateRating p.rating then (.validationError, store)
  else
    let r := ReviewViewSet.perform_create u p (nextId (store.map Review.id))
    (.created r, store ++ [r])

/-- Controller actions a ModelViewSet route can dispatch to (a PATCH request
maps to the partial-update action). -/
inductive RouteAction
  | list
  | retrieve
  | create
  | update
  | patchUpdate
  | destroy
deriving DecidableEq, Repr

/-- The three viewset classes of views.py. -/
inductive EntityKind
  | listing
  | booking
  | review
deriving DecidableEq, Repr

/-- One router.register call: a collection name bound to a viewset. -/
structure Registration where
  collectionName : String
  entity : EntityKind
deriving DecidableEq, Repr

/-- The registrations performed in urls.py: the single call
router.register on the name listings with ListingViewSet. -/
def router_registrations : List Registration := [⟨"listings", .listing⟩]

/-- DefaultRouter dispatch for a ModelViewSet registration: the collection
URL maps GET to list and POST to create; the item URL maps GET to retrieve,
PUT to update, PATCH to partial update, DELETE to destroy; a collection
name with no registration resolves to no action. -/
def routedAction (regs : List Registration) (coll : String) (isItem : Bool)
    (m : Method) : Option (EntityKind × RouteAction) :=
  match regs.find? fun r => r.collectionName == coll with
  | none => none
  | some r =>
    if isItem then
      match m with
      | .GET => some (r.entity, .retrieve)
      | .PUT => some (r.entity, .update)
      | .PATCH => some (r.entity, .patchUpdate)
      | .DELETE => some (r.entity, .destroy)
      | _ => none
    else
      match m with
      | .GET => some (r.entity, .list)
      | .POST => some (r.entity, .create)
      | _ => none

/-- C1: for every caller identity and every create payload, even one
carrying a different client-supplied owner, perform_create persists the
caller as owner: host for listings, guest for bookings, user for reviews. -/
theorem C1_owner_set_from_caller (ru : RequestUser) (lp : ListingPayload)
    (bp : BookingPayload) (rp : ReviewPayload) (n : Nat) :
    (ListingViewSet.perform_create ru lp n).host = ru ∧
    (BookingViewSet.perform_create ru bp n).guest = ru ∧
    (ReviewViewSet.perform_create ru rp n).user = ru :=
  ⟨rfl, rfl, rfl⟩

/-- C2: the shared gate IsHostOrReadOnly allows every safe-method request,
and on an unsafe method allows exactly the callers equal to the value of
the object host attribute. -/
theorem C2_gate_safe_or_owner (m : Method) (u h : RequestUser) :
    (m.isSafe = true → IsHostOrReadOnly.has_object_permission m u ⟨some h⟩ = true) ∧
    (m.isSafe = false →
      (IsHostOrReadOnly.has_object_permission m u ⟨some h⟩ = true ↔ h = u)) := by
  constructor
  · intro hs
    simp [IsHostOrReadOnly, hs]
  · intro hs
    simp [IsHostOrReadOnly, hs]

/-- Witness for C2 at GET for an anonymous caller and at PUT for the owner. -/
theorem C2_gate_safe_or_owner_witness :
    IsHostOrReadOnly.has_object_permission .GET .anonymous ⟨some (.user 1)⟩ = true ∧
    (IsHostOrReadOnly.has_object_permission .PUT (.user 1) ⟨some (.user 1)⟩ = true ↔
      RequestUser.user 1 = .user 1) :=
  ⟨(C2_gate_safe_or_owner .GET .anonymous (.user 1)).1 (by decide),
   (C2_gate_safe_or_owner .PUT (.user 1) (.user 1)).2 (by decide)⟩

/-- C3 counterexample: the router of urls.py registers no booking or review
collection, so a GET on the bookings collection path (and likewise the
reviews path) resolves to no controller action at all. -/
theorem C3_router_counterexample :
    routedAction router_registrations "bookings" false .GET = none ∧
    routedAction router_registrations "reviews" false .GET = none := by
  exact ⟨rfl, rfl⟩

/-- C3 (amended): the router exposes exactly the Listing collection — GET
and POST on the collection path dispatch to list and create, and GET, PUT,
PATCH, DELETE on the item path dispatch to retrieve, update, partial
update, destroy — while every request naming a bookings or reviews
collection resolves to no action for every method. -/
theorem C3_router_amended :
    routedAction router_registrations "listings" false .GET = some (.listing, .list) ∧
    routedAction router_registrations "listings" false .POST = some (.listing, .create) ∧
    routedAction router_registrations "listings" true .GET = some (.listing, .retrieve) ∧
    routedAction router_registrations "listings" true .PUT = some (.listing, .update) ∧
    routedAction router_registrations "listings" true .PATCH = some (.listing, .patchUpdate) ∧
    routedAction router_registrations "listings" true .DELETE = some (.listing, .destroy) ∧
    (∀ (isItem : Bool) (m : Method),
      routedAction router_registrations "bookings" isItem m = none ∧
      routedAction router_registrations "reviews" isItem m = none) := by
  refine ⟨rfl, rfl, rfl, rfl, rfl, rfl, ?_⟩
  intro isItem m
  cases isItem <;> cases m <;> exact ⟨rfl, rfl⟩

/-- C10: on an object with no host attribute the gate never errors and
denies every unsafe method: the getattr default None compares unequal to
every request user. -/
theorem C10_hostless_always_denied (m : Method) (u : RequestUser)
    (h : m.isSafe = false) :
    IsHostOrReadOnly.has_object_permission m u ⟨none⟩ = false := by
  simp [IsHostOrReadOnly, h]

/-- Witness for C10 at POST for an authenticated caller. -/
theorem C10_hostless_always_denied_witness :
    Method.isSafe .POST = false ∧
    IsHostOrReadOnly.has_object_permission .POST (.user 0) ⟨none⟩ = false :=
  ⟨by decide, C10_hostless_always_denied .POST (.user 0) (by decide)⟩

/-- C5: for every method and every (optional) fetched object, the Booking
and Review permission gates reject an unauthenticated caller with an
Unauthenticated result, and every authenticated caller passes the
dispatch-level authentication gate. -/
theorem C5_booking_review_require_auth (m : Method) (obj : Option ApiObject) (n : Nat) :
    dispatchCheck BookingViewSet.permission_classes m .anonymous obj = .unauthenticated ∧
    dispatchCheck ReviewViewSet.permission_classes m .anonymous obj = .unauthenticated ∧
    checkPermissions BookingViewSet.permission_classes m (.user n) = true ∧
    checkPermissions ReviewViewSet.permission_classes m (.user n) = true := by
  refine ⟨?_, ?_, ?_, ?_⟩ <;>
    simp [dispatchCheck, checkPermissions, BookingViewSet.permission_classes,
      ReviewViewSet.permission_classes, IsAuthenticated, RequestUser.isAuthenticated]

/-- C8: update and destroy on bookings and reviews are gated by
authentication only: an authenticated caller passes the full permission
gate on any booking or review, even one whose guest or author is someone
else. -/
theorem C8_no_ownership_on_booking_review (n : Nat) (b : Booking) (r : Review)
    (_hb : RequestUser.user n ≠ b.guest) (_hr : RequestUser.user n ≠ r.user) :
    dispatchCheck BookingViewSet.permission_classes .PUT (.user n) (some b.asObject) = .allowed ∧
    dispatchCheck BookingViewSet.permission_classes .DELETE (.user n) (some b.asObject) = .allowed ∧
    dispatchCheck ReviewViewSet.permission_classes .PUT (.user n) (some r.asObject) = .allowed ∧
    dispatchCheck ReviewViewSet.permission_classes .DELETE (.user n) (some r.asObject) = .allowed := by
  refine ⟨?_, ?_, ?_, ?_⟩ <;>
    simp [dispatchCheck, checkPermissions, checkObjectPermissions,
      BookingViewSet.permission_classes, ReviewViewSet.permission_classes,
      IsAuthenticated, RequestUser.isAuthenticated]

/-- Witness for C8: user 0 acting on a booking of guest 1 and a review by
author 1. -/
theorem C8_no_ownership_on_booking_review_witness :
    RequestUser.user 0 ≠ (Booking.mk 1 1 (.user 1) 3 5).guest ∧
    RequestUser.user 0 ≠ (Review.mk 1 1 (.user 1) 4 "fine").user ∧
    dispatchCheck BookingViewSet.permission_classes .PUT (.user 0)
      (some (Booking.mk 1 1 (.user 1) 3 5).asObject) = .allowed :=
  ⟨by decide, by decide,
   (C8_no_ownership_on_booking_review 0 (Booking.mk 1 1 (.user 1) 3 5)
     (Review.mk 1 1 (.user 1) 4 "fine") (by decide) (by decide)).1⟩

/-- C9: retrieve is a pure read of the store: it never changes the store,
and two consecutive retrieve calls with no intervening write return the
very same response and state. -/
theorem C9_retrieve_idempotent (u : RequestUser) (i : Nat) (store : List Listing) :
    (ListingViewSet.retrieveHandler u i store).2 = store ∧
    ListingViewSet.retrieveHandler u i (ListingViewSet.retrieveHandler u i store).2 =
      ListingViewSet.retrieveHandler u i store := by
  have hsnd : (ListingViewSet.retrieveHandler u i store).2 = store := by
    unfold ListingViewSet.retrieveHandler
    split
    · rfl
    · split
      · rfl
      · split <;> rfl
  exact ⟨hsnd, by rw [hsnd]⟩

/-- Rating validation holds exactly on the closed interval [1,5]. -/
theorem validateRating_eq_true (r : Int) : validateRating r = true ↔ (1 ≤ r ∧ r ≤ 5) := by
  simp [validateRating]

/-- C6: for an authenticated caller, a review create whose rating lies
outside 1..5 fails with a validation error and persists nothing, while a
rating inside 1..5 creates and persists exactly the row built by
perform_create; the validation runs before any row is appended. -/
theorem C6_review_rating_validated (n : Nat) (p : ReviewPayload) (store : List Review) :
    (¬(1 ≤ p.rating ∧ p.rating ≤ 5) →
      ReviewViewSet.createHandler (.user n) p store = (.validationError, store)) ∧
    ((1 ≤ p.rating ∧ p.rating ≤ 5) →
      ReviewViewSet.createHandler (.user n) p store =
        (.created (ReviewViewSet.perform_create (.user n) p (nextId (store.map Review.id))),
         store ++ [ReviewViewSet.perform_create (.user n) p (nextId (store.map Review.id))])) := by
  constructor
  · intro hbad
    have hv : validateRating p.rating = false := by
      rw [← Bool.not_eq_true, validateRating_eq_true]
      exact hbad
    simp [ReviewViewSet.createHandler, checkPermissions, ReviewViewSet.permission_classes,
      IsAuthenticated, RequestUser.isAuthenticated, hv]
  · intro hgood
    have hv : validateRating p.rating = true := (validateRating_eq_true p.rating).2 hgood
    simp [ReviewViewSet.createHandler, checkPermissions, ReviewViewSet.permission_classes,
      IsAuthenticated, RequestUser.isAuthenticated, hv]

/-- Witness for C6: rating 6 is rejected without persisting; rating 5 is
created with the caller as author. -/
theorem C6_review_rating_validated_witness :
    ReviewViewSet.createHandler (.user 0) (ReviewPayload.mk none 1 6 "x") [] =
      (.validationError, ([] : List Review)) ∧
    ReviewViewSet.createHandler (.user 0) (ReviewPayload.mk none 1 5 "x") [] =
      (.created (Review.mk 1 1 (.user 0) 5 "x"), [Review.mk 1 1 (.user 0) 5 "x"]) :=
  ⟨(C6_review_rating_validated 0 (ReviewPayload.mk none 1 6 "x") []).1 (by decide),
   (C6_review_rating_validated 0 (ReviewPayload.mk none 1 5 "x") []).2 (by decide)⟩

/-- C7: a successful listing update leaves host unchanged: the returned row
carries the host of the stored row, whatever host the payload carried. -/
theorem C7_host_immutable_on_update (u : RequestUser) (i : Nat) (p : ListingPayload)
    (store : List Listing) (updated : Listing) (s2 : List Listing)
    (h : ListingViewSet.updateHandler u i p store = (.ok updated, s2)) :
    ∃ l, findListing store i = some l ∧ updated.host = l.host := by
  unfold ListingViewSet.updateHandler at h
  split at h
  · cases u <;> simp [denyResponse, RequestUser.isAuthenticated] at h
  · split at h
    · simp at h
    · rename_i l hfind
      split at h
      · refine ⟨l, hfind, ?_⟩
        simp only [Prod.mk.injEq, Response.ok.injEq] at h
        obtain ⟨h1, -⟩ := h
        rw [← h1]
        rfl
      · cases u <;> simp [denyResponse, RequestUser.isAuthenticated] at h

/-- Witness for C7: the owner updates every descriptive field, supplying a
different host in the payload; the persisted host is unchanged. -/
theorem C7_host_immutable_on_update_witness :
    ∃ l, findListing [Listing.mk 1 (.user 2) "t" "d" 5 "x"] 1 = some l ∧
      (Listing.mk 1 (.user 2) "t2" "d2" 7 "y").host = l.host :=
  C7_host_immutable_on_update (.user 2) 1 (ListingPayload.mk (some (.user 9)) "t2" "d2" 7 "y")
    [Listing.mk 1 (.user 2) "t" "d" 5 "x"] (Listing.mk 1 (.user 2) "t2" "d2" 7 "y")
    [Listing.mk 1 (.user 2) "t2" "d2" 7 "y"] (by decide)

/-- Dispatch gate of the listing viewset reduces to safe-or-authenticated. -/
theorem listing_dispatch_gate (m : Method) (u : RequestUser) :
    checkPermissions ListingViewSet.permission_classes m u = (m.isSafe || u.isAuthenticated) := by
  simp [checkPermissions, ListingViewSet.permission_classes, IsAuthenticatedOrReadOnly,
    IsHostOrReadOnly]

/-- Object gate of the listing viewset on a safe method always passes. -/
theorem listing_object_gate_safe (m : Method) (u : RequestUser) (obj : ApiObject)
    (hm : m.isSafe = true) :
    checkObjectPermissions ListingViewSet.permission_classes m u obj = true := by
  simp [checkObjectPermissions, ListingViewSet.permission_classes, IsAuthenticatedOrReadOnly,
    IsHostOrReadOnly, hm]

/-- Object gate of the listing viewset on an unsafe method is exactly the
host comparison. -/
theorem listing_object_gate_write (m : Method) (u : RequestUser) (obj : ApiObject)
    (hm : m.isSafe = false) :
    checkObjectPermissions ListingViewSet.permission_classes m u obj = (obj.host == some u) := by
  simp [checkObjectPermissions, ListingViewSet.permission_classes, IsAuthenticatedOrReadOnly,
    IsHostOrReadOnly, hm]

/-- C4: an anonymous caller can list and retrieve listings, while create,
update and destroy answer Unauthenticated; moreover any create that
succeeds was issued by an authenticated caller, and any update or destroy
that succeeds was issued by the authenticated host of the stored row. -/
theorem C4_listing_auth_matrix (store : List Listing) (i : Nat) (l : Listing)
    (p : ListingPayload) (hfind : findListing store i = some l) :
    ListingViewSet.listHandler .anonymous store = (.ok store, store) ∧
    ListingViewSet.retrieveHandler .anonymous i store = (.ok l, store) ∧
    ListingViewSet.createHandler .anonymous p store = (.unauthenticated, store) ∧
    ListingViewSet.updateHandler .anonymous i p store = (.unauthenticated, store) ∧
    ListingViewSet.destroyHandler .anonymous i store = (.unauthenticated, store) ∧
    (∀ (u : RequestUser) (l2 : Listing) (s2 : List Listing),
      ListingViewSet.createHandler u p store = (.created l2, s2) →
      u.isAuthenticated = true) ∧
    (∀ (u : RequestUser) (l2 : Listing) (s2 : List Listing),
      ListingViewSet.updateHandler u i p store = (.ok l2, s2) →
      u.isAuthenticated = true ∧ l.host = u) ∧
    (∀ (u : RequestUser) (s2 : List Listing),
      ListingViewSet.destroyHandler u i store = (.noContent, s2) →
      u.isAuthenticated = true ∧ l.host = u) := by
  refine ⟨rfl, ?_, rfl, rfl, rfl, ?_, ?_, ?_⟩
  · unfold ListingViewSet.retrieveHandler
    rw [hfind]
    rfl
  · intro u l2 s2 h
    cases u with
    | anonymous =>
      rw [show ListingViewSet.createHandler .anonymous p store =
        (.unauthenticated, store) from rfl] at h
      simp at h
    | user n => rfl
  · intro u l2 s2 h
    cases u with
    | anonymous =>
      rw [show ListingViewSet.updateHandler .anonymous i p store =
        (.unauthenticated, store) from rfl] at h
      simp at h
    | user n =>
      refine ⟨rfl, ?_⟩
      unfold ListingViewSet.updateHandler at h
      split at h
      · simp [denyResponse, RequestUser.isAuthenticated] at h
      · split at h
        · simp at h
        · rename_i l0 hf0
          rw [hfind] at hf0
          injection hf0 with he
          subst he
          split at h
          · rename_i hgate
            rw [listing_object_gate_write .PUT (.user n) l.asObject rfl] at hgate
            simpa [Listing.asObject] using hgate
          · simp [denyResponse, RequestUser.isAuthenticated] at h
  · intro u s2 h
    cases u with
    | anonymous =>
      rw [show ListingViewSet.destroyHandler .anonymous i store =
        (.unauthenticated, store) from rfl] at h
      simp at h
    | user n =>
      refine ⟨rfl, ?_⟩
      unfold ListingViewSet.destroyHandler at h
      split at h
      · simp [denyResponse, RequestUser.isAuthenticated] at h
      · split at h
        · simp at h
        · rename_i l0 hf0
          rw [hfind] at hf0
          injection hf0 with he
          subst he
          split at h
          · rename_i hgate
            rw [listing_object_gate_write .DELETE (.user n) l.asObject rfl] at hgate
            simpa [Listing.asObject] using hgate
          · simp [denyResponse, RequestUser.isAuthenticated] at h

/-- Witness for C4: an anonymous retrieve of a stored listing succeeds. -/
theorem C4_listing_auth_matrix_witness :
    findListing [Listing.mk 1 (.user 2) "t" "d" 5 "x"] 1 =
      some (Listing.mk 1 (.user 2) "t" "d" 5 "x") ∧
    ListingViewSet.retrieveHandler .anonymous 1 [Listing.mk 1 (.user 2) "t" "d" 5 "x"] =
      (.ok (Listing.mk 1 (.user 2) "t" "d" 5 "x"), [Listing.mk 1 (.user 2) "t" "d" 5 "x"]) :=
  ⟨rfl, (C4_listing_auth_matrix [Listing.mk 1 (.user 2) "t" "d" 5 "x"] 1
    (Listing.mk 1 (.user 2) "t" "d" 5 "x") (ListingPayload.mk none "t2" "d2" 7 "y") rfl).2.1⟩
